import Mathlib

/-!
Shallow embedding of `src/runtime/composables/fetch.ts` of the
`nuxt-sanctum` module: the Request Wrapper (`useSanctumFetch`) and the
Session Client (`useSanctum`, with `refreshCsrfToken`, `check`, `login`,
`logout`).  The shared reactive state (`csrfToken`, `authenticated`,
`user`), the browser cookie jar and the recorded navigations are carried
in an explicit machine state; each HTTP call's outcome is a parameter of
the operation that issues it, and a rejected promise is an `Except.error`
result.
-/

namespace NuxtSanctum

/-- First-match lookup in an association list (cookie jars, header maps). -/
def lookup (l : List (String × String)) (name : String) : Option String :=
  (l.find? (fun c => c.1 = name)).map (fun c => c.2)

/-- JS truthiness of an optional string: `undefined`/`null` and the empty
string are falsy, every other string is truthy. -/
def truthy : Option String → Bool
  | none => false
  | some s => !(s = "")

/-- JS nullish coalescing `a ?? b`: `b` only when `a` is `null`/`undefined`
(note `some ""` is kept, unlike truthiness). -/
def coalesce : Option String → Option String → Option String
  | none, b => b
  | some a, _ => some a

/-- Accumulating split of a character list on the two-character separator
`", "` (comma–space); used to model the library's splitting of a combined
`set-cookie` header value. -/
def splitOnCommaSpace : List Char → List Char → List (List Char)
  | acc, [] => [acc.reverse]
  | acc, ',' :: ' ' :: rest => acc.reverse :: splitOnCommaSpace [] rest
  | acc, c :: rest => splitOnCommaSpace (c :: acc) rest

/-- The characters of `l` strictly before the first occurrence of `c`
(all of `l` when `c` does not occur). -/
def takeUntilChar (c : Char) : List Char → List Char
  | [] => []
  | x :: xs => if x = c then [] else x :: takeUntilChar c xs

/-- Split `l` at the first occurrence of `c`: `some (before, after)` with
`c` itself dropped, or `none` when `c` does not occur. -/
def breakAtChar (c : Char) : List Char → Option (List Char × List Char)
  | [] => none
  | x :: xs =>
    if x = c then some ([], xs)
    else match breakAtChar c xs with
      | none => none
      | some (a, b) => some (x :: a, b)

/-- JS `String.prototype.endsWith`, modelling
`request.toString().endsWith(config.check.endpoint)`. -/
def strEndsWith (s pat : String) : Bool := pat.toList.isSuffixOf s.toList

/-- Modelled from the library `set-cookie-parser-es` (an external
dependency, not repository code): `splitCookiesString` splits a combined
`set-cookie` header value into the individual cookie strings.  The comma
inside an `Expires` attribute is not special-cased here; none of the
cookies considered in this development carries one. -/
def splitCookiesString (s : String) : List String :=
  if s = "" then [] else (splitOnCommaSpace [] s.toList).map String.mk

/-- Modelled from the library `set-cookie-parser-es`: one cookie string is
parsed to its name and value — the name–value pair is the part before the
first `;`, the name is the part before the first `=`, the value everything
after it (a string without `=` parses as an empty name with the whole
string as value). -/
def parseCookieString (s : String) : String × String :=
  let av := takeUntilChar ';' s.toList
  match breakAtChar '=' av with
  | none => ("", String.mk av)
  | some (name, value) => (String.mk name, String.mk value)

/-- Modelled from the library `set-cookie-parser-es`: `parse` over the
split cookie strings, as the pair of calls
`parse (splitCookiesString header)` in both `onResponse` hooks. -/
def parseSetCookies (s : String) : List (String × String) :=
  (splitCookiesString s).map parseCookieString

/-- `cookies.find(c => c.name === "XSRF-TOKEN")?.value` applied to the
parsed `set-cookie` header (lines 36–38 and 97–99 of the source). -/
def findXsrfToken (s : String) : Option String :=
  lookup (parseSetCookies s) "XSRF-TOKEN"

/-- An HTTP response as this layer sees it: status, body (opaque string)
and the raw combined `set-cookie` header value (`""` when absent). -/
structure HttpResponse where
  status : Nat
  body : String
  setCookie : String
deriving DecidableEq

/-- The outcome of one HTTP call: a response (of any status) or a
network/transport failure that produces no response. -/
inductive FetchOutcome where
  | resp (r : HttpResponse)
  | networkError
deriving DecidableEq

/-- `ofetch` rejects exactly on a received status ≥ 400 and on network
failure; `fetchOk` is the complement. -/
def fetchOk : FetchOutcome → Bool
  | .resp r => r.status < 400
  | .networkError => false

/-- The execution context: Nuxt's server (SSR) vs. client side, and, on
the server, the cookies of the inbound request (`useCookie` and
`useRequestHeaders(["cookie"])` read these there). -/
structure Env where
  isServer : Bool
  requestCookies : List (String × String)
deriving DecidableEq

/-- The runtime configuration `config.public.sanctum` consumed by both
composables. -/
structure Config where
  url : String
  csrfEndpoint : String
  checkEndpoint : String
  loginEndpoint : String
  loginRedirectsTo : Option String
  logoutEndpoint : String
  logoutRedirectsTo : Option String
deriving DecidableEq

/-- The mutable world: the browser cookie jar (client side), the three
shared reactive states `sanctum.csrfToken`, `sanctum.authenticated`
(tri-state) and `sanctum.user`, and the list of navigation targets passed
to `navigateTo` / `useRouter().push` (in order; `none` is JS
`undefined`). -/
structure MState where
  browserCookies : List (String × String)
  csrfToken : Option String
  authenticated : Option Bool
  user : Option String
  navigations : List (Option String)
deriving DecidableEq

/-- `useCookie(name).value`: on the server the inbound request's cookie,
on the client the browser jar's cookie. -/
def useCookieValue (env : Env) (s : MState) (name : String) : Option String :=
  if env.isServer then lookup env.requestCookies name
  else lookup s.browserCookies name

/-- Environment behaviour, not repository code: on the client the browser
applies a response's `Set-Cookie` headers to its jar before script reads
it; on the server no jar exists. -/
def browserApply (env : Env) (r : HttpResponse) (s : MState) : MState :=
  if env.isServer then s
  else { s with browserCookies := parseSetCookies r.setCookie ++ s.browserCookies }

/-- The `onResponse` hook, identical in the Request Wrapper (lines 30–44)
and the Session Client's `sanctumFetch` (lines 91–105): on the server the
CSRF token state is set to the `XSRF-TOKEN` value parsed from the
response's `set-cookie` header (absent when not set); on the client it is
set to `useCookie("XSRF-TOKEN").value`. -/
def csrfOnResponse (env : Env) (r : HttpResponse) (s : MState) : MState :=
  if env.isServer then { s with csrfToken := findXsrfToken r.setCookie }
  else { s with csrfToken := useCookieValue env s "XSRF-TOKEN" }

/-- A response reaching this layer: the browser jar update followed by the
`onResponse` hook. -/
def processResponse (env : Env) (r : HttpResponse) (s : MState) : MState :=
  csrfOnResponse env r (browserApply env r s)

/-- One `sanctumFetch` call of the Session Client: a network failure
rejects with no response and runs no hook; a received response (any
status) runs the `onResponse` hook, then resolves with the body when the
status is < 400 and rejects with the response otherwise. -/
def sanctumFetchRun (env : Env) (o : FetchOutcome) (s : MState) :
    Except (Option HttpResponse) String × MState :=
  match o with
  | .networkError => (.error none, s)
  | .resp r =>
    let s1 := processResponse env r s
    if r.status < 400 then (.ok r.body, s1) else (.error (some r), s1)

/-- `refreshCsrfToken` (lines 115–119): awaits the CSRF-endpoint GET (a
rejection propagates: there is no try/catch), then assigns
`useCookie("XSRF-TOKEN").value` to the shared token and returns it. -/
def refreshCsrfToken (env : Env) (o : FetchOutcome) (s : MState) :
    Except (Option HttpResponse) (Option String) × MState :=
  match sanctumFetchRun env o s with
  | (.error e, s1) => (.error e, s1)
  | (.ok _, s1) =>
    let tok := useCookieValue env s1 "XSRF-TOKEN"
    (.ok tok, { s1 with csrfToken := tok })

/-- `check` (lines 126–141): on a resolved GET stores the response body as
`user` and sets `authenticated := true`; on a rejection sets
`authenticated := false`; returns `authenticated.value`, never rejecting
(the whole body is inside try/catch). -/
def check (env : Env) (o : FetchOutcome) (s : MState) :
    Except (Option HttpResponse) Bool × MState :=
  match sanctumFetchRun env o s with
  | (.ok body, s1) => (.ok true, { s1 with user := some body, authenticated := some true })
  | (.error _, s1) => (.ok false, { s1 with authenticated := some false })

/-- `login` (lines 157–187): awaits `refreshCsrfToken` OUTSIDE the
try/catch (outcome `o1`; its rejection propagates), then inside the
try/catch POSTs the credentials (outcome `o2`), awaits `check` (outcome
`o3`) discarding its result, and, when `redirectTo || config.login.redirectsTo`
is truthy, pushes `redirectTo ?? config.login.redirectsTo`; returns
`true`.  A rejection of the POST is caught: `authenticated := false`,
returns `false`.  The credential body does not influence this layer and is
absorbed into `o2`. -/
def login (env : Env) (cfg : Config) (o1 o2 o3 : FetchOutcome)
    (redirectTo : Option String) (s : MState) :
    Except (Option HttpResponse) Bool × MState :=
  match refreshCsrfToken env o1 s with
  | (.error e, s1) => (.error e, s1)
  | (.ok _, s1) =>
    match sanctumFetchRun env o2 s1 with
    | (.error _, s2) => (.ok false, { s2 with authenticated := some false })
    | (.ok _, s2) =>
      let s3 := (check env o3 s2).2
      if truthy redirectTo || truthy cfg.loginRedirectsTo then
        (.ok true, { s3 with
          navigations := s3.navigations ++ [coalesce redirectTo cfg.loginRedirectsTo] })
      else (.ok true, s3)

/-- `logout` (lines 203–225): inside try/catch POSTs to the logout
endpoint (outcome `o`); on resolution sets `authenticated := false` (the
`user` state is not touched) and, when `redirectTo ?? config.logout.redirectsTo`
is truthy, pushes `config.logout.redirectsTo` (the push argument on line
218 is the configured default, not `redirectTo`); returns `true`.  On
rejection returns `false` with no state change beyond the hook. -/
def logout (env : Env) (cfg : Config) (o : FetchOutcome)
    (redirectTo : Option String) (s : MState) :
    Except (Option HttpResponse) Bool × MState :=
  match sanctumFetchRun env o s with
  | (.error _, s1) => (.ok false, s1)
  | (.ok _, s1) =>
    let s2 := { s1 with authenticated := some false }
    if truthy (coalesce redirectTo cfg.logoutRedirectsTo) then
      (.ok true, { s2 with navigations := s2.navigations ++ [cfg.logoutRedirectsTo] })
    else (.ok true, s2)

/-- The Request Wrapper's `onResponseError` hook (lines 45–56): on status
401, a request whose stringified target ends with the configured check
endpoint is exempted (`return` with no effect); any other 401 sets
`authenticated := false`, `user := null` and calls
`navigateTo(config.logout.redirectsTo)`.  Non-401 statuses do nothing
here. -/
def onResponseError (cfg : Config) (request : String) (r : HttpResponse)
    (s : MState) : MState :=
  if r.status = 401 then
    if strEndsWith request cfg.checkEndpoint then s
    else
      { s with authenticated := some false, user := none,
               navigations := s.navigations ++ [cfg.logoutRedirectsTo] }
  else s

/-- Serialisation of a cookie jar back to a `cookie` request header, for
`useRequestHeaders(["cookie"])` forwarding. -/
def cookieHeaderString (cs : List (String × String)) : String :=
  String.intercalate "; " (cs.map (fun c => c.1 ++ "=" ++ c.2))

/-- The default headers the Request Wrapper attaches when it is built
(lines 26–29): the forwarded inbound `cookie` header on the server, and
`X-XSRF-TOKEN` from the shared token when that is truthy. -/
def wrapperHeaders (env : Env) (s : MState) : List (String × String) :=
  (if env.isServer then [("cookie", cookieHeaderString env.requestCookies)] else []) ++
  (if truthy s.csrfToken then [("X-XSRF-TOKEN", s.csrfToken.getD "")] else [])

/-- A promise outcome as a boolean: `true` exactly when it resolved
(`Except.ok`), `false` when it rejected. -/
def resolves {α : Type} : Except (Option HttpResponse) α → Bool
  | .ok _ => true
  | .error _ => false

/-! Concrete sample values used to exercise the model. -/

/-- A server execution context whose inbound request carries the (stale)
cookie `XSRF-TOKEN=old`. -/
def envServer : Env := ⟨true, [("XSRF-TOKEN", "old")]⟩

/-- A client (browser) execution context. -/
def envClient : Env := ⟨false, []⟩

/-- The empty initial state: no cookies, unknown authentication, no user,
no navigation yet. -/
def st0 : MState := ⟨[], none, none, none, []⟩

/-- A state of an authenticated session: user `"alice"` is loaded and a
CSRF token is held. -/
def stAuthed : MState := ⟨[], some "tok", some true, some "alice", []⟩

/-- A plain 200 response with body `"userbody"` and no `Set-Cookie`. -/
def ok200 : HttpResponse := ⟨200, "userbody", ""⟩

/-- A 401 response. -/
def r401 : HttpResponse := ⟨401, "", ""⟩

/-- A 302 response (non-2xx, yet below ofetch's rejection threshold of
400) with a body and no `Set-Cookie`. -/
def r302 : HttpResponse := ⟨302, "redirectbody", ""⟩

/-- A 204 response whose `Set-Cookie` delivers a fresh token
`XSRF-TOKEN=new`. -/
def respNewTok : HttpResponse := ⟨204, "", "XSRF-TOKEN=new; Path=/"⟩

/-- A 200 response that sets a session cookie but no `XSRF-TOKEN`. -/
def respNoXsrf : HttpResponse := ⟨200, "", "laravel_session=xyz; Path=/; HttpOnly"⟩

/-- A 200 response with `Set-Cookie: XSRF-TOKEN=abc123; Path=/`. -/
def abcResp : HttpResponse := ⟨200, "", "XSRF-TOKEN=abc123; Path=/"⟩

/-- A sample runtime configuration: check endpoint `/user`, login redirect
`/dashboard`, logout redirect `/goodbye`. -/
def cfgSample : Config :=
  ⟨"https://api.test", "/sanctum/csrf-cookie", "/user", "/login",
    some "/dashboard", "/logout", some "/goodbye"⟩

/-! Invariant helper lemmas about which fields the response pipeline can
touch. -/

theorem processResponse_nav (env : Env) (r : HttpResponse) (s : MState) :
    (processResponse env r s).navigations = s.navigations := by
  cases h : env.isServer <;>
    simp [processResponse, csrfOnResponse, browserApply, h]

theorem processResponse_user (env : Env) (r : HttpResponse) (s : MState) :
    (processResponse env r s).user = s.user := by
  cases h : env.isServer <;>
    simp [processResponse, csrfOnResponse, browserApply, h]

theorem processResponse_auth (env : Env) (r : HttpResponse) (s : MState) :
    (processResponse env r s).authenticated = s.authenticated := by
  cases h : env.isServer <;>
    simp [processResponse, csrfOnResponse, browserApply, h]

theorem processResponse_csrf_server (env : Env) (r : HttpResponse) (s : MState)
    (h : env.isServer = true) :
    (processResponse env r s).csrfToken = findXsrfToken r.setCookie := by
  simp [processResponse, csrfOnResponse, browserApply, h]

theorem sanctumFetchRun_of_ok (env : Env) (o : FetchOutcome) (s : MState)
    (h : fetchOk o = true) :
    ∃ r : HttpResponse, o = .resp r ∧
      sanctumFetchRun env o s = (Except.ok r.body, processResponse env r s) := by
  cases o with
  | networkError => simp [fetchOk] at h
  | resp r =>
    refine ⟨r, rfl, ?_⟩
    have hlt : r.status < 400 := by simpa [fetchOk] using h
    simp [sanctumFetchRun, hlt]

theorem sanctumFetchRun_nav (env : Env) (o : FetchOutcome) (s : MState) :
    ((sanctumFetchRun env o s).2).navigations = s.navigations := by
  cases o with
  | networkError => rfl
  | resp r =>
    by_cases hlt : r.status < 400 <;>
      simp [sanctumFetchRun, hlt, processResponse_nav]

theorem sanctumFetchRun_user (env : Env) (o : FetchOutcome) (s : MState) :
    ((sanctumFetchRun env o s).2).user = s.user := by
  cases o with
  | networkError => rfl
  | resp r =>
    by_cases hlt : r.status < 400 <;>
      simp [sanctumFetchRun, hlt, processResponse_user]

theorem sanctumFetchRun_resolves (env : Env) (o : FetchOutcome) (s : MState) :
    resolves (sanctumFetchRun env o s).1 = fetchOk o := by
  cases o with
  | networkError => rfl
  | resp r =>
    by_cases hlt : r.status < 400 <;>
      simp [sanctumFetchRun, fetchOk, resolves, hlt]

theorem refreshCsrfToken_nav (env : Env) (o : FetchOutcome) (s : MState) :
    ((refreshCsrfToken env o s).2).navigations = s.navigations := by
  unfold refreshCsrfToken
  rcases hr : sanctumFetchRun env o s with ⟨e, s1⟩
  have hnav := sanctumFetchRun_nav env o s
  rw [hr] at hnav
  cases e <;> simpa using hnav

theorem refreshCsrfToken_resolves (env : Env) (o : FetchOutcome) (s : MState) :
    resolves (refreshCsrfToken env o s).1 = fetchOk o := by
  unfold refreshCsrfToken
  rcases hr : sanctumFetchRun env o s with ⟨e, s1⟩
  have hres := sanctumFetchRun_resolves env o s
  rw [hr] at hres
  cases e <;> simpa [resolves] using hres

theorem check_nav (env : Env) (o : FetchOutcome) (s : MState) :
    ((check env o s).2).navigations = s.navigations := by
  unfold check
  rcases hr : sanctumFetchRun env o s with ⟨e, s1⟩
  have hnav := sanctumFetchRun_nav env o s
  rw [hr] at hnav
  cases e <;> simpa using hnav

theorem check_resolves (env : Env) (o : FetchOutcome) (s : MState) :
    resolves (check env o s).1 = true := by
  unfold check
  rcases hr : sanctumFetchRun env o s with ⟨e, s1⟩
  cases e <;> rfl

theorem parseSetCookies_abc :
    parseSetCookies "XSRF-TOKEN=abc123; Path=/" = [("XSRF-TOKEN", "abc123")] := by
  decide

theorem findXsrfToken_abc :
    findXsrfToken "XSRF-TOKEN=abc123; Path=/" = some "abc123" := by
  decide

/-! Claim theorems. -/

/-- C7 counterexample: a 302 response to the check GET is non-2xx, so per
the claim's failure clause `check` should set `authenticated := false`
and return `false`; but `ofetch` rejects only on status 400–599, so the
code takes the success path: it stores the body as `user`, sets
`authenticated := true` and returns `true`. -/
theorem c7_counterexample :
    ¬(200 ≤ r302.status ∧ r302.status < 300) ∧
    (check envClient (.resp r302) st0).1 = Except.ok true ∧
    ((check envClient (.resp r302) st0).2).authenticated = some true ∧
    ((check envClient (.resp r302) st0).2).user = some r302.body :=
  ⟨by decide, rfl, by decide, by decide⟩

/-- C7 amended: for every call to `check()`: if the GET to the check
endpoint yields a response whose status is below 400 (the underlying
client rejects only on 400–599, so a 3xx also counts as success), the
response body is stored as `user`, `authenticated` is set to `true` and
`check` returns `true`; if it fails (status ≥ 400 or network failure),
`authenticated` is set to `false` and `check` resolves to `false`
without rejecting. -/
theorem c7_check_spec (env : Env) (s : MState) :
    (∀ r : HttpResponse, r.status < 400 →
      (check env (.resp r) s).1 = Except.ok true ∧
      ((check env (.resp r) s).2).user = some r.body ∧
      ((check env (.resp r) s).2).authenticated = some true) ∧
    (∀ o : FetchOutcome, fetchOk o = false →
      (check env o s).1 = Except.ok false ∧
      ((check env o s).2).authenticated = some false) := by
  constructor
  · intro r h
    simp [check, sanctumFetchRun, h]
  · intro o h
    cases o with
    | networkError => simp [check, sanctumFetchRun]
    | resp r =>
      have h' : ¬ r.status < 400 := by simpa [fetchOk] using h
      simp [check, sanctumFetchRun, h']

/-- Closed witness for C7: in the client context, a successful check with
body `"userbody"` loads the user and sets `authenticated`. -/
theorem c7_check_spec_witness :
    ok200.status < 400 ∧
    ((check envClient (.resp ok200) st0).1 = Except.ok true ∧
     ((check envClient (.resp ok200) st0).2).user = some ok200.body ∧
     ((check envClient (.resp ok200) st0).2).authenticated = some true) :=
  ⟨by decide, (c7_check_spec envClient st0).1 ok200 (by decide)⟩

/-- C10: in the server execution context, after any response is processed
by either component's (identical) response hook, the shared CSRF token
equals the `XSRF-TOKEN` value parsed from that response's `set-cookie`
header; in particular, a response setting no `XSRF-TOKEN` cookie
overwrites the shared token to absent even when a token was previously
held. -/
theorem c10_server_hook_overwrites (env : Env) (r : HttpResponse) (s : MState)
    (h : env.isServer = true) :
    (processResponse env r s).csrfToken = findXsrfToken r.setCookie ∧
    (findXsrfToken r.setCookie = none → (processResponse env r s).csrfToken = none) := by
  have h1 := processResponse_csrf_server env r s h
  exact ⟨h1, fun h2 => h1.trans h2⟩

/-- Closed witness for C10: on the server, a response that only sets a
session cookie erases the previously held token `"tok"`. -/
theorem c10_server_hook_overwrites_witness :
    envServer.isServer = true ∧
    findXsrfToken respNoXsrf.setCookie = none ∧
    (processResponse envServer respNoXsrf stAuthed).csrfToken = none :=
  ⟨rfl, by decide,
    (c10_server_hook_overwrites envServer respNoXsrf stAuthed rfl).2 (by decide)⟩

/-- C9: round trip of the CSRF token: after a response carrying
`Set-Cookie: XSRF-TOKEN=abc123; Path=/` is processed (in either execution
context; on the client the browser has applied the cookie to its jar), a
request subsequently built by the Request Wrapper attaches the header
`X-XSRF-TOKEN: abc123`. -/
theorem c9_csrf_round_trip (env : Env) (s : MState) :
    lookup (wrapperHeaders env (processResponse env abcResp s)) "X-XSRF-TOKEN"
      = some "abc123" := by
  cases h : env.isServer
  · simp [processResponse, csrfOnResponse, browserApply, useCookieValue, h,
          abcResp, parseSetCookies_abc, wrapperHeaders, truthy, lookup, List.find?]
  · simp [processResponse, csrfOnResponse, browserApply, h,
          abcResp, findXsrfToken_abc, wrapperHeaders, truthy, lookup, List.find?]

/-- C2 (code bug): a successful `logout` sets `authenticated := false`
but leaves the stale `user` record in place, violating the documented
invariant that every transition of `authenticated` to `false` clears
`user` to `null`. -/
theorem c2_logout_keeps_stale_user :
    ((logout envClient cfgSample (.resp ok200) none stAuthed).2).authenticated
        = some false ∧
    ((logout envClient cfgSample (.resp ok200) none stAuthed).2).user
        = some "alice" := by
  decide

/-- C8 (code bug): on the server, `refreshCsrfToken` receives a response
delivering `XSRF-TOKEN=new` in `Set-Cookie` (and its own `onResponse`
hook parses exactly that value), yet it then overwrites the shared token
with `useCookie`'s value — the stale inbound request cookie `old` — and
returns `old`. -/
theorem c8_server_refresh_returns_stale :
    (refreshCsrfToken envServer (.resp respNewTok) st0).1 = Except.ok (some "old") ∧
    ((refreshCsrfToken envServer (.resp respNewTok) st0).2).csrfToken = some "old" ∧
    findXsrfToken respNewTok.setCookie = some "new" :=
  ⟨rfl, by decide, by decide⟩

/-- C5 counterexample: the request target `/api/user` is not equal to the
configured check endpoint `/user`, yet its 401 leaves the authenticated
state, the user and the navigation list untouched — the exemption matches
by suffix, not by inequality of targets. -/
theorem c5_counterexample :
    ("/api/user" : String) ≠ cfgSample.checkEndpoint ∧
    onResponseError cfgSample "/api/user" r401 stAuthed = stAuthed := by
  refine ⟨by decide, by decide⟩

/-- C5 amended: for every Request Wrapper request that receives an HTTP
401 and whose stringified target does not END WITH the configured check
endpoint, the hook sets `authenticated := false`, sets `user := null` and
navigates to the configured logout redirect target. -/
theorem c5_401_clears_and_redirects (cfg : Config) (request : String)
    (r : HttpResponse) (s : MState) (h401 : r.status = 401)
    (hne : strEndsWith request cfg.checkEndpoint = false) :
    onResponseError cfg request r s =
      { s with authenticated := some false, user := none,
               navigations := s.navigations ++ [cfg.logoutRedirectsTo] } := by
  simp [onResponseError, h401, hne]

/-- Closed witness for C5: a 401 on `/api/posts` (not a suffix match of
`/user`) clears the session and records the `/goodbye` navigation. -/
theorem c5_401_clears_and_redirects_witness :
    r401.status = 401 ∧
    strEndsWith "/api/posts" cfgSample.checkEndpoint = false ∧
    onResponseError cfgSample "/api/posts" r401 stAuthed =
      { stAuthed with authenticated := some false, user := none,
                      navigations := stAuthed.navigations ++ [cfgSample.logoutRedirectsTo] } :=
  ⟨rfl, by decide,
    c5_401_clears_and_redirects cfgSample "/api/posts" r401 stAuthed rfl (by decide)⟩

/-- C6 counterexample: the target `/admin/user` differs from the check
endpoint `/user`, so per the claim its 401 should reach the
state-clearing branch; instead the suffix-based exemption swallows it
with no effect. -/
theorem c6_counterexample :
    ("/admin/user" : String) ≠ cfgSample.checkEndpoint ∧
    onResponseError cfgSample "/admin/user" r401 stAuthed = stAuthed := by
  refine ⟨by decide, by decide⟩

/-- C6 amended: the 401 exemption applies exactly when the failing
request's stringified target ends with the configured check endpoint; an
exempted request is swallowed with no state change and no navigation,
while a 401 on a target that does not end with the check endpoint takes
the state-clearing/redirect branch. -/
theorem c6_exemption_is_suffix_match (cfg : Config) (request : String)
    (r : HttpResponse) (s : MState) (h401 : r.status = 401) :
    (strEndsWith request cfg.checkEndpoint = true →
      onResponseError cfg request r s = s) ∧
    (strEndsWith request cfg.checkEndpoint = false →
      onResponseError cfg request r s =
        { s with authenticated := some false, user := none,
                 navigations := s.navigations ++ [cfg.logoutRedirectsTo] }) := by
  constructor <;> intro hsuf <;> simp [onResponseError, h401, hsuf]

/-- Closed witness for C6: the check endpoint `/user` itself is exempted
with no side effects. -/
theorem c6_exemption_is_suffix_match_witness :
    r401.status = 401 ∧
    strEndsWith "/user" cfgSample.checkEndpoint = true ∧
    onResponseError cfgSample "/user" r401 stAuthed = stAuthed :=
  ⟨rfl, by decide,
    (c6_exemption_is_suffix_match cfgSample "/user" r401 stAuthed rfl).1 (by decide)⟩

/-- C4 (code bug): a successful `logout(redirectTo := "/bye")` does set
`authenticated := false`, leave `user` unchanged and return `true`, but
it navigates to the configured default `/goodbye` instead of the given
`redirectTo` — line 218 pushes `config.logout.redirectsTo`
unconditionally, contradicting the function's own documentation. -/
theorem c4_logout_redirect_ignored :
    (logout envClient cfgSample (.resp ok200) (some "/bye") stAuthed).1
        = Except.ok true ∧
    ((logout envClient cfgSample (.resp ok200) (some "/bye") stAuthed).2).authenticated
        = some false ∧
    ((logout envClient cfgSample (.resp ok200) (some "/bye") stAuthed).2).user
        = stAuthed.user ∧
    ((logout envClient cfgSample (.resp ok200) (some "/bye") stAuthed).2).navigations
        = [some "/goodbye"] ∧
    (some "/goodbye" : Option String) ≠ some "/bye" :=
  ⟨rfl, by decide, by decide, by decide, by decide⟩

/-- C1 counterexample: with a working CSRF refresh, a login POST that
succeeds and a `check()` that fails (401 on the check GET), `login`
still navigates to the given `redirectTo` and returns `true`, although
the subsequent `check()` did not succeed (the final state shows
`authenticated = false`). -/
theorem c1_counterexample :
    (login envClient cfgSample (.resp respNewTok) (.resp ok200) (.resp r401)
        (some "/dash") st0).1 = Except.ok true ∧
    ((login envClient cfgSample (.resp respNewTok) (.resp ok200) (.resp r401)
        (some "/dash") st0).2).authenticated = some false ∧
    ((login envClient cfgSample (.resp respNewTok) (.resp ok200) (.resp r401)
        (some "/dash") st0).2).navigations = [some "/dash"] :=
  ⟨rfl, by decide, by decide⟩

/-- C1 amended: provided the CSRF-refresh GET does not reject, the login
POST alone decides the outcome: if the POST succeeds, `login` returns
`true` and navigates (to `redirectTo` if given, else to the configured
default, whenever either is truthy) regardless of whether the subsequent
`check()` succeeded; if the POST fails, `login` returns `false` and no
navigation occurs. -/
theorem c1_login_post_decides (env : Env) (cfg : Config)
    (o1 o2 o3 : FetchOutcome) (rt : Option String) (s : MState)
    (h1 : fetchOk o1 = true) :
    (fetchOk o2 = true →
      (login env cfg o1 o2 o3 rt s).1 = Except.ok true ∧
      ((login env cfg o1 o2 o3 rt s).2).navigations =
        s.navigations ++
          (if truthy rt || truthy cfg.loginRedirectsTo
           then [coalesce rt cfg.loginRedirectsTo] else [])) ∧
    (fetchOk o2 = false →
      (login env cfg o1 o2 o3 rt s).1 = Except.ok false ∧
      ((login env cfg o1 o2 o3 rt s).2).navigations = s.navigations) := by
  cases o1 with
  | networkError => simp [fetchOk] at h1
  | resp r1 =>
    have hlt1 : r1.status < 400 := by simpa [fetchOk] using h1
    constructor
    · intro h2
      cases o2 with
      | networkError => simp [fetchOk] at h2
      | resp r2 =>
        have hlt2 : r2.status < 400 := by simpa [fetchOk] using h2
        cases hg : (truthy rt || truthy cfg.loginRedirectsTo) <;>
          simp [login, refreshCsrfToken, sanctumFetchRun, hlt1, hlt2, hg,
                check_nav, processResponse_nav]
    · intro h2
      cases o2 with
      | networkError =>
        simp [login, refreshCsrfToken, sanctumFetchRun, hlt1, processResponse_nav]
      | resp r2 =>
        have hlt2 : ¬ r2.status < 400 := by simpa [fetchOk] using h2
        simp [login, refreshCsrfToken, sanctumFetchRun, hlt1, hlt2,
              processResponse_nav]

/-- Closed witness for C1: with every call succeeding, a login with
`redirectTo := "/dash"` returns `true` and records that navigation. -/
theorem c1_login_post_decides_witness :
    fetchOk (.resp respNewTok) = true ∧ fetchOk (.resp ok200) = true ∧
    ((login envClient cfgSample (.resp respNewTok) (.resp ok200) (.resp ok200)
        (some "/dash") st0).1 = Except.ok true ∧
     ((login envClient cfgSample (.resp respNewTok) (.resp ok200) (.resp ok200)
        (some "/dash") st0).2).navigations =
       st0.navigations ++
         (if truthy (some "/dash") || truthy cfgSample.loginRedirectsTo
          then [coalesce (some "/dash") cfgSample.loginRedirectsTo] else [])) :=
  ⟨by decide, by decide,
    (c1_login_post_decides envClient cfgSample (.resp respNewTok) (.resp ok200)
        (.resp ok200) (some "/dash") st0 (by decide)).1 (by decide)⟩

theorem logout_resolves (env : Env) (cfg : Config) (o : FetchOutcome)
    (rt : Option String) (s : MState) :
    resolves (logout env cfg o rt s).1 = true := by
  unfold logout
  rcases hr : sanctumFetchRun env o s with ⟨e, s1⟩
  cases e with
  | error e => rfl
  | ok b =>
    cases hg : truthy (coalesce rt cfg.logoutRedirectsTo) <;> simp [hg, resolves]

theorem login_resolves_of_csrf_ok (env : Env) (cfg : Config)
    (o1 o2 o3 : FetchOutcome) (rt : Option String) (s : MState)
    (h1 : fetchOk o1 = true) :
    resolves (login env cfg o1 o2 o3 rt s).1 = true := by
  cases o1 with
  | networkError => simp [fetchOk] at h1
  | resp r1 =>
    have hlt1 : r1.status < 400 := by simpa [fetchOk] using h1
    cases o2 with
    | networkError =>
      simp [login, refreshCsrfToken, sanctumFetchRun, hlt1, resolves]
    | resp r2 =>
      by_cases hlt2 : r2.status < 400 <;>
        cases hg : (truthy rt || truthy cfg.loginRedirectsTo) <;>
          simp [login, refreshCsrfToken, sanctumFetchRun, hlt1, hlt2, hg, resolves]

/-- C3 counterexample: when the CSRF-refresh GET suffers a network
failure, `login` rejects (the refresh is awaited outside the try/catch),
so `login` does not always resolve to a boolean. -/
theorem c3_counterexample :
    (login envClient cfgSample FetchOutcome.networkError (.resp ok200) (.resp ok200)
        none st0).1 = Except.error none := rfl

/-- C3 amended: `check` and `logout` always resolve to a boolean for
every outcome of their HTTP calls; `login` resolves to a boolean for
every outcome of its login POST and its `check` GET, but only provided
its CSRF-refresh GET does not fail — that failure propagates as a
rejection to the caller. -/
theorem c3_no_throw_amended (env : Env) (cfg : Config)
    (o o1 o2 o3 : FetchOutcome) (rt rt2 : Option String) (s : MState) :
    resolves (check env o s).1 = true ∧
    resolves (logout env cfg o rt s).1 = true ∧
    (fetchOk o1 = true → resolves (login env cfg o1 o2 o3 rt2 s).1 = true) :=
  ⟨check_resolves env o s, logout_resolves env cfg o rt s,
    fun h1 => login_resolves_of_csrf_ok env cfg o1 o2 o3 rt2 s h1⟩

/-- Closed witness for C3: at concrete outcomes (a failing check POST
outcome for `check`/`logout`, a succeeding CSRF GET for `login`), all
three operations resolve. -/
theorem c3_no_throw_amended_witness :
    fetchOk (.resp respNewTok) = true ∧
    (resolves (check envClient (.resp r401) st0).1 = true ∧
     resolves (logout envClient cfgSample (.resp r401) none st0).1 = true ∧
     (fetchOk (.resp respNewTok) = true →
       resolves (login envClient cfgSample (.resp respNewTok) (.resp ok200)
         (.resp ok200) none st0).1 = true)) :=
  ⟨by decide,
    c3_no_throw_amended envClient cfgSample (.resp r401) (.resp respNewTok)
      (.resp ok200) (.resp ok200) none none st0⟩

end NuxtSanctum
